import Mathlib

/-!
Verification of the printer-state tracking core of PrusaLink-RZ
(`old_buddy/modules/state_manager.py` and the single-instance guard of
`old_buddy/input_output/connect_api.py`), as a shallow embedding in Lean.

The manager keeps three independent state slots (`base_state`,
`printing_state`, `override_state`), derives the externally visible
composed state from them, and attributes each composed-state change to a
source by consulting a single-slot "expected state change" register.
Serial lines are matched against anchored regular expressions and routed
to mutator methods; a background poll reconciles the state via `M27`.

Python `None` is modelled by `Option.none`; a Python `dict` literal by an
association list looked up with `List.lookup`; an uncaught Python
exception escaping a code path (such as an `AttributeError` from calling
`.name` on `None`) by `Except.error`.
-/

namespace OldBuddy

/-- `States` enumeration (used by `old_buddy.modules.state_manager`;
spec §3 lists the same seven variants). -/
inductive States where
  | READY
  | BUSY
  | PRINTING
  | PAUSED
  | FINISHED
  | ATTENTION
  | ERROR
deriving DecidableEq, Repr

/-- `Sources` enumeration (attribution of a transition; spec §3). -/
inductive Sources where
  | USER
  | MARLIN
  | CONNECT
  | WUI
deriving DecidableEq, Repr

open States Sources

/-- `StateChange.__init__` (state_manager.py lines 32-46): an expectation
record.  `to_states` / `from_states` are Python dicts
`Dict[States, Union[Sources, None]]`, modelled as association lists whose
values are `Option Sources` (`none` models a `None` dict value);
`api_response` is only used through `get_command_id`, so it is modelled
directly as the optional command id it yields. -/
structure StateChange where
  api_response : Option Nat := none
  to_states : List (States × Option Sources) := []
  from_states : List (States × Option Sources) := []
  default_source : Option Sources := none
deriving DecidableEq, Repr

/-- The instance attributes of `StateManager` that take part in state
tracking (state_manager.py lines 85-103): the three actual slots, the
internal busy flag, the reported-state history and the single-slot
expectation register. -/
structure SMState where
  base_state : States
  printing_state : Option States
  override_state : Option States
  internal_busy : Bool
  last_state : States
  current_state : States
  expected_state_change : Option StateChange
deriving DecidableEq, Repr

/-- `StateManager.get_state` (lines 158-164): the composed state is
`override` if present, else `printing` if present, else `base`. -/
def get_state (s : SMState) : States :=
  match s.override_state with
  | some o => o
  | none =>
    match s.printing_state with
    | some p => p
    | none => s.base_state

/-- `StateManager.is_busy` (lines 166-172). -/
def is_busy (s : SMState) : Bool :=
  s.internal_busy || s.base_state == States.BUSY

/-- `StateManager.is_expected` (lines 180-189): a change is expected when
an expectation is installed and the new composed state is a key of
`to_states`, or the previous one is a key of `from_states`, or a
`default_source` is set.  Python `x in dict` is key membership. -/
def is_expected (s : SMState) : Bool :=
  match s.expected_state_change with
  | none => false
  | some sc =>
    (sc.to_states.lookup s.current_state).isSome
      || (sc.from_states.lookup s.last_state).isSome
      || sc.default_source.isSome

/-- Python `dict.__getitem__` guarded by a key-membership test, collapsed
with the initial `source_from = None` / `source_to = None`: an absent key
and a key mapped to `None` both yield `none`. -/
def lookupSource (d : List (States × Option Sources)) (k : States) :
    Option Sources :=
  match d.lookup k with
  | some v => v
  | none => none

/-- `StateManager.expected_source` (lines 191-222).  Returns `none` both
when no expectation is installed and when the computed source is `None`
(Python returns `None` in both cases). -/
def expected_source (s : SMState) : Option Sources :=
  match s.expected_state_change with
  | none => none
  | some sc =>
    let source_from := lookupSource sc.from_states s.last_state
    let source_to := lookupSource sc.to_states s.current_state
    let source :=
      if source_from.isSome && source_to.isSome && source_to != source_from
      then source_from
      else
        -- next(item for item in [source_from, source_to] if item is not None)
        match ([source_from, source_to].filterMap id) with
        | x :: _ => some x
        | [] => none
    match source with
    | none => sc.default_source
    | some src => some src

/-- One `state_changed.send(self, command_id=..., source=...)` call
(line 249).  `state` records the manager's `current_state` at the moment
of sending; `source` is the `Sources` member whose `.name` was passed, or
`none` in the unexpected branch where `source` stayed `None`. -/
structure Emission where
  state : States
  command_id : Option Nat
  source : Option Sources
deriving DecidableEq, Repr

/-- `StateManager.state_may_have_changed` (lines 224-249).  When the
composed state moved, the history is updated, the expectation is consumed
and a `state_changed` emission is produced.  In the expected branch the
code evaluates `self.expected_source().name`; when `expected_source`
returns `None` this raises `AttributeError`, modelled as `Except.error`.
-/
def state_may_have_changed (s : SMState) :
    Except Unit (SMState × List Emission) :=
  if get_state s ≠ s.current_state then
    let s1 : SMState :=
      { s with last_state := s.current_state, current_state := get_state s }
    if is_expected s1 then
      let command_id : Option Nat :=
        match s1.expected_state_change with
        | some sc => sc.api_response
        | none => none
      match expected_source s1 with
      | none => .error ()
      | some src =>
        .ok ({ s1 with expected_state_change := none },
             [⟨s1.current_state, command_id, some src⟩])
    else
      .ok ({ s1 with expected_state_change := none },
           [⟨s1.current_state, none, none⟩])
  else
    .ok (s, [])

/-- `state_influencer` decorator (lines 49-73): when no expectation is
installed at entry, the mutator's default expectation is installed; the
wrapped body runs, `state_may_have_changed` runs, and an expectation the
wrapper itself installed is cleared at exit.  Every decorated mutator in
the source passes a (non-`None`) default `StateChange`.  The wrapped body
may itself emit (the `ok` mutator calls `state_may_have_changed`), hence
its `Except` result type. -/
def influenced (default : StateChange)
    (body : SMState → Except Unit (SMState × List Emission))
    (s : SMState) : Except Unit (SMState × List Emission) := do
  let has_set_expected_change := s.expected_state_change.isNone
  let s1 :=
    if has_set_expected_change then
      { s with expected_state_change := some default }
    else s
  let (s2, em1) ← body s1
  let (s3, em2) ← state_may_have_changed s2
  let s4 :=
    if has_set_expected_change then
      { s3 with expected_state_change := none }
    else s3
  pure (s4, em1 ++ em2)

/-- Lifts a pure slot mutation (every mutator body except `ok`) into the
shape `influenced` expects. -/
def pureBody (f : SMState → SMState) (s : SMState) :
    Except Unit (SMState × List Emission) :=
  .ok (f s, [])

/-! Default expectations of the mutators (the decorator arguments,
lines 254-307). -/

def printingChange : StateChange :=
  { to_states := [(PRINTING, some USER)] }

def not_printingChange : StateChange :=
  { from_states :=
      [(PRINTING, some MARLIN), (PAUSED, some MARLIN),
       (FINISHED, some MARLIN)] }

def finishedChange : StateChange :=
  { to_states := [(FINISHED, some MARLIN)] }

def busyChange : StateChange :=
  { to_states := [(BUSY, some MARLIN)] }

def pausedChange : StateChange :=
  { to_states := [(PAUSED, some USER)] }

def resumedChange : StateChange :=
  { to_states := [(PRINTING, some USER)] }

def okChange : StateChange :=
  { to_states := [(READY, some MARLIN)],
    from_states := [(ATTENTION, some USER), (ERROR, some USER)] }

def attentionChange : StateChange :=
  { to_states := [(ATTENTION, some USER)] }

def errorChange : StateChange :=
  { to_states := [(ERROR, some WUI)] }

/-! The mutator bodies (lines 253-310), then the decorated mutators. -/

/-- Body of `printing` (lines 255-257). -/
def printing_body (s : SMState) : SMState :=
  if s.printing_state = none then
    { s with printing_state := some PRINTING }
  else s

/-- Body of `not_printing` (lines 262-264). -/
def not_printing_body (s : SMState) : SMState :=
  if s.printing_state ≠ none then
    { s with printing_state := none }
  else s

/-- Body of `finished` (lines 267-269). -/
def finished_body (s : SMState) : SMState :=
  if s.printing_state = some PRINTING then
    { s with printing_state := some FINISHED }
  else s

/-- Body of `busy` (lines 272-274). -/
def busy_body (s : SMState) : SMState :=
  if s.base_state = READY then
    { s with base_state := BUSY }
  else s

/-- Body of `paused` (lines 278-280). -/
def paused_body (s : SMState) : SMState :=
  if s.printing_state = some PRINTING then
    { s with printing_state := some PAUSED }
  else s

/-- Body of `resumed` (lines 283-285). -/
def resumed_body (s : SMState) : SMState :=
  if s.printing_state = some PAUSED then
    { s with printing_state := some PRINTING }
  else s

/-- Body of `ok` (lines 290-300): clearing a present override calls
`state_may_have_changed` immediately; then a `FINISHED` printing slot is
cleared and a `BUSY` base becomes `READY`. -/
def ok_body (s : SMState) : Except Unit (SMState × List Emission) := do
  let (s1, em1) ←
    if s.override_state.isSome then
      state_may_have_changed { s with override_state := none }
    else
      pure (s, ([] : List Emission))
  let s2 :=
    if s1.printing_state = some FINISHED then
      { s1 with printing_state := none }
    else s1
  let s3 :=
    if s2.base_state = BUSY then
      { s2 with base_state := READY }
    else s2
  pure (s3, em1)

/-- Body of `attention` (lines 303-305). -/
def attention_body (s : SMState) : SMState :=
  { s with override_state := some ATTENTION }

/-- Body of `error` (lines 308-310). -/
def error_body (s : SMState) : SMState :=
  { s with override_state := some ERROR }

def printingM : SMState → Except Unit (SMState × List Emission) :=
  influenced printingChange (pureBody printing_body)

def not_printingM : SMState → Except Unit (SMState × List Emission) :=
  influenced not_printingChange (pureBody not_printing_body)

def finishedM : SMState → Except Unit (SMState × List Emission) :=
  influenced finishedChange (pureBody finished_body)

def busyM : SMState → Except Unit (SMState × List Emission) :=
  influenced busyChange (pureBody busy_body)

def pausedM : SMState → Except Unit (SMState × List Emission) :=
  influenced pausedChange (pureBody paused_body)

def resumedM : SMState → Except Unit (SMState × List Emission) :=
  influenced resumedChange (pureBody resumed_body)

def okM : SMState → Except Unit (SMState × List Emission) :=
  influenced okChange ok_body

def attentionM : SMState → Except Unit (SMState × List Emission) :=
  influenced attentionChange (pureBody attention_body)

def errorM : SMState → Except Unit (SMState × List Emission) :=
  influenced errorChange (pureBody error_body)

/-! Serial-line patterns (state_manager.py lines 17-27).  Every pattern
but `ERROR_REGEX` and `SD_PRINTING_REGEX` is fully anchored (`^...$`) and
literal, so it matches exactly one line. -/

/-- `OK_REGEX = ^ok$` (line 17). -/
def matchesOK (l : String) : Bool := l == "ok"

/-- `BUSY_REGEX = ^echo:busy: processing$` (line 18). -/
def matchesBUSY (l : String) : Bool := l == "echo:busy: processing"

/-- `ATTENTION_REGEX = ^echo:busy: paused for user$` (line 19). -/
def matchesATTENTION (l : String) : Bool := l == "echo:busy: paused for user"

/-- `PAUSED_REGEX = ^// action:paused$` (line 20). -/
def matchesPAUSED (l : String) : Bool := l == "// action:paused"

/-- `RESUMED_REGEX = ^// action:resumed$` (line 21). -/
def matchesRESUMED (l : String) : Bool := l == "// action:resumed"

/-- `CANCEL_REGEX = ^// action:cancel$` (line 22). -/
def matchesCANCEL (l : String) : Bool := l == "// action:cancel"

/-- `START_PRINT_REGEX = ^echo:enqueing "M24"$` (line 23). -/
def matchesSTART_PRINT (l : String) : Bool := l == "echo:enqueing \"M24\""

/-- `PRINT_DONE_REGEX = ^Done printing file$` (line 24). -/
def matchesPRINT_DONE (l : String) : Bool := l == "Done printing file"

/-- The literal part of `ERROR_REGEX` before its unescaped `.`. -/
def errorHead : String := "Error:Printer stopped due to errors"

/-- The literal part of `ERROR_REGEX` after its unescaped `.`. -/
def errorTail : String := " Fix the error and use M999 to restart"

/-- `ERROR_REGEX` (line 25):
`^Error:Printer stopped due to errors. Fix the error and use M999 to restart.*`.
The `.` after `errors` is NOT escaped in the source, so it matches any
single character; the trailing `.*` accepts any continuation.  A line
matches iff it is the literal head, then one arbitrary character, then
the literal `" Fix the error and use M999 to restart"`, then anything
(stated over the line's character list). -/
def matchesERROR (l : String) : Bool :=
  errorHead.data.isPrefixOf l.data
    && l.data.length ≥ errorHead.data.length + 1
    && (((l.data.drop (errorHead.data.length + 1)).take
           errorTail.data.length)
          == errorTail.data)

/-- `^(\d+:\d+)$`, the second alternative of `SD_PRINTING_REGEX`
(line 27). -/
def isSDTime (l : String) : Bool :=
  match l.splitOn ":" with
  | [a, b] => a ≠ "" && b ≠ "" && a.all Char.isDigit && b.all Char.isDigit
  | _ => false

/-- The groups of a `SD_PRINTING_REGEX` match. -/
structure SDGroups where
  g1 : Option String
  g2 : Option String
deriving DecidableEq, Repr

/-- `SD_PRINTING_REGEX = ^(Not SD printing)$|^(\d+:\d+)$` (line 27)
applied to a line: group 1 captures the literal `Not SD printing`,
group 2 a `minutes:seconds` time; `none` when the line matches neither
alternative. -/
def sdGroups (l : String) : Option SDGroups :=
  if l == "Not SD printing" then some ⟨some l, none⟩
  else if isSDTime l then some ⟨none, some l⟩
  else none

/-- Modelled from the spec: the serial line dispatcher
(`old_buddy.modules.serial`, not under `src/`) delivers each inbound line
to every registered handler whose pattern matches, in registration order
(spec §4.1).  The registration order is that of `StateManager.__init__`
(state_manager.py lines 107-115).  Applies one handler when its pattern
matches the line, accumulating the state and the emissions. -/
def applyIf (b : Bool)
    (handler : SMState → Except Unit (SMState × List Emission))
    (p : SMState × List Emission) :
    Except Unit (SMState × List Emission) :=
  if b then do
    let (s, em) ← handler p.1
    pure (s, p.2 ++ em)
  else
    pure p

/-- Modelled from the spec: processing of one inbound serial line by the
state manager's registered handlers (spec §4.1/§4.3.1; the dispatcher
itself, `old_buddy.modules.serial`, is not under `src/`).  The handlers
and their patterns are exactly the registrations of
`StateManager.__init__` (state_manager.py lines 107-115), in order. -/
def processLine (l : String) (s : SMState) :
    Except Unit (SMState × List Emission) := do
  let p ← applyIf (matchesOK l) okM (s, [])
  let p ← applyIf (matchesBUSY l) busyM p
  let p ← applyIf (matchesATTENTION l) attentionM p
  let p ← applyIf (matchesPAUSED l) pausedM p
  let p ← applyIf (matchesRESUMED l) resumedM p
  let p ← applyIf (matchesCANCEL l) not_printingM p
  let p ← applyIf (matchesSTART_PRINT l) printingM p
  let p ← applyIf (matchesPRINT_DONE l) finishedM p
  let p ← applyIf (matchesERROR l) errorM p
  pure p

/-- The serial interactions one `update_state` tick depends on:
the progress answer of the telemetry getter (`none` models its
`TimeoutError`), and the `M27` reply as matched by `SD_PRINTING_REGEX`
(`none` models the `TimeoutError` of `serial.write("M27", ...)`;
`write` only returns a match of the pattern). -/
structure PollInput where
  progress : Option Nat
  m27 : Option SDGroups
deriving DecidableEq, Repr

/-- The expectation installed by the poll-driven finish
(state_manager.py line 143). -/
def pollFinishedChange : StateChange :=
  { to_states := [(FINISHED, some MARLIN)] }

/-- `StateManager.update_state` (lines 127-156).  When the manager is
busy, only `PRUSA PING` is written and nothing else happens.  Otherwise:
if `printing_state == PRINTING` and the progress getter answered `100`,
an expectation to `FINISHED: MARLIN` is installed and `finished` runs;
then the `M27` reply is dispatched — group 1 (`Not SD printing`) with a
non-`PAUSED` printing slot runs `not_printing`, anything else runs
`printing`.  Returns the new state, the serial lines written (the
telemetry progress getter's own writes happen inside a module not under
`src/` and are not listed), and the emissions. -/
def update_state (s : SMState) (inp : PollInput) :
    Except Unit (SMState × List String × List Emission) := do
  if is_busy s then
    pure (s, ["PRUSA PING"], [])
  else
    let (s1, em1) ←
      if s.printing_state = some PRINTING then
        match inp.progress with
        | none => pure (s, ([] : List Emission))
        | some progress =>
          if progress = 100 then
            finishedM
              { s with expected_state_change := some pollFinishedChange }
          else
            pure (s, [])
      else
        pure (s, [])
    match inp.m27 with
    | none => pure (s1, ["M27"], em1)
    | some groups =>
      if groups.g1.isSome && s1.printing_state ≠ some PAUSED then do
        let (s2, em2) ← not_printingM s1
        pure (s2, ["M27"], em1 ++ em2)
      else do
        let (s2, em2) ← printingM s1
        pure (s2, ["M27"], em1 ++ em2)

/-! Single-instance guards.  `StateManager.instance` (state_manager.py
line 79) and `ConnectAPI.instance` (connect_api.py line 21) are class
attributes initialised to `None`; each `__init__` raises when the
attribute is non-`None` (an `AssertionError`, lines 82-83 resp. a failed
`assert`, lines 24-27) and no statement anywhere under `src/` ever
assigns to `instance`, so instance-attribute lookup always falls through
to the class attribute. -/

/-- One `StateManager.__init__` guard evaluation (lines 82-83) as a
transformer of the class attribute `instance`: raise `AssertionError`
when it is set, otherwise leave it as it is (the constructor never
assigns it). -/
def StateManager_init_guard (inst : Option Unit) :
    Except Unit (Option Unit) :=
  if inst.isSome then .error () else .ok inst

/-- The class attribute `StateManager.instance` after `n` successful
constructor calls, starting from its initialiser `None` (line 79). -/
def StateManager_instance_after : Nat → Except Unit (Option Unit)
  | 0 => .ok none
  | n + 1 => do
    let i ← StateManager_instance_after n
    StateManager_init_guard i

/-- One `ConnectAPI.__init__` guard evaluation (connect_api.py
lines 24-27), same protocol. -/
def ConnectAPI_init_guard (inst : Option Unit) :
    Except Unit (Option Unit) :=
  if inst.isSome then .error () else .ok inst

/-- The class attribute `ConnectAPI.instance` after `n` successful
constructor calls, starting from its initialiser `None` (line 21). -/
def ConnectAPI_instance_after : Nat → Except Unit (Option Unit)
  | 0 => .ok none
  | n + 1 => do
    let i ← ConnectAPI_instance_after n
    ConnectAPI_init_guard i

/-! Result projections and concrete states used to exercise the model. -/

/-- The state of a successful `Except` result, with a fallback. -/
def okState (e : Except Unit (SMState × List Emission)) (d : SMState) :
    SMState :=
  match e with
  | .ok (r, _) => r
  | .error _ => d

/-- The emissions of a successful `Except` result. -/
def okEms (e : Except Unit (SMState × List Emission)) : List Emission :=
  match e with
  | .ok (_, em) => em
  | .error _ => []

/-- The slots as initialised by `StateManager.__init__` (lines 88-97):
`base=READY`, no printing or override state, not busy, history primed
with the composed state, no expectation. -/
def initialState : SMState :=
  { base_state := READY, printing_state := none, override_state := none,
    internal_busy := false, last_state := READY, current_state := READY,
    expected_state_change := none }

/-- An idle manager whose override slot holds `ATTENTION` (the situation
after `echo:busy: paused for user` was processed): spec scenario (d)
before the recovering `ok` line. -/
def attentionRecoveryState : SMState :=
  { initialState with
      override_state := some ATTENTION, current_state := ATTENTION }

/-- The manager state after the recovering `ok` line. -/
def attentionRecoveryAfter : SMState :=
  { initialState with
      last_state := ATTENTION, current_state := READY }

/-- A manager in the middle of consuming the `ok` default expectation
while leaving `ATTENTION`: history already updated to
`last=ATTENTION, curr=READY`, expectation still installed. -/
def okRecoveryLookupState : SMState :=
  { initialState with
      last_state := ATTENTION, current_state := READY,
      expected_state_change := some okChange }

/-- A manager that finished a print (`printing=FINISHED`, `base=READY`,
no override): spec scenario (c) before the `ok` line. -/
def finishedOkState : SMState :=
  { initialState with
      printing_state := some FINISHED,
      last_state := PRINTING, current_state := FINISHED }

/-- The manager state after `ok` cleared the finished print. -/
def finishedOkAfter : SMState :=
  { initialState with
      last_state := FINISHED, current_state := READY }

/-- An expectation whose only entry maps the target state to `None`
(`StateChange(to_states={States.READY: None})`); its `default_source`
is also `None`. -/
def noneSourceChange : StateChange :=
  { to_states := [(READY, none)] }

/-- A busy manager with `noneSourceChange` installed: the next
`BUSY → READY` composed-state change is classified as expected, yet
every source lookup yields `None`. -/
def noneSourceState : SMState :=
  { initialState with
      base_state := BUSY, last_state := BUSY, current_state := BUSY,
      expected_state_change := some noneSourceChange }

/-- A paused manager (`printing=PAUSED`), spec scenario (f). -/
def sdPausedState : SMState :=
  { initialState with
      printing_state := some PAUSED, current_state := PAUSED }

/-- A poll tick whose `M27` reply is `Not SD printing` (group 1). -/
def sdPausedInput : PollInput :=
  { progress := none, m27 := sdGroups "Not SD printing" }

/-- A printing manager (`printing=PRINTING`). -/
def printingNowState : SMState :=
  { initialState with
      printing_state := some PRINTING, current_state := PRINTING }

/-- A paused manager used to exercise `resumed`. -/
def pausedNowState : SMState :=
  { initialState with
      printing_state := some PAUSED, current_state := PAUSED }

/-- A manager whose composed state just moved (`base=READY` while the
history still says `BUSY`), with no expectation installed. -/
def staleBusyState : SMState :=
  { initialState with last_state := BUSY, current_state := BUSY }

/-- A busy manager (`internal_busy` set). -/
def internalBusyState : SMState :=
  { initialState with internal_busy := true }

end OldBuddy

namespace OldBuddy

open States Sources

/-- Helper: a line matched by `ERROR_REGEX` is not equal to any given
line that `ERROR_REGEX` rejects. -/
theorem matchesERROR_ne_lit (l lit : String) (hm : matchesERROR l = true)
    (hlit : matchesERROR lit = false) : (l == lit) = false := by
  rcases h : l == lit
  · rfl
  · have he : l = lit := eq_of_beq h
    rw [he, hlit] at hm
    exact Bool.noConfusion hm

/-- Helper: `errorM` under an empty expectation register always
succeeds and leaves the override slot holding `ERROR`. -/
theorem errorM_sets_override (s : SMState)
    (h : s.expected_state_change = none) :
    ∃ r ems, errorM s = .ok (r, ems)
      ∧ r.override_state = some ERROR := by
  by_cases hc : s.current_state = ERROR
  · refine ⟨{ s with override_state := some ERROR,
                     expected_state_change := none }, [], ?_, rfl⟩
    unfold errorM influenced
    simp only [h, Option.isNone_none, if_true, pureBody, error_body,
      bind, Except.bind]
    simp only [state_may_have_changed]
    simp [get_state, hc, pure, Except.pure]
  · refine ⟨{ s with override_state := some ERROR,
                     last_state := s.current_state,
                     current_state := ERROR,
                     expected_state_change := none },
      [{ state := ERROR, command_id := none, source := some WUI }],
      ?_, rfl⟩
    unfold errorM influenced
    simp only [h, Option.isNone_none, if_true, pureBody, error_body,
      bind, Except.bind]
    simp only [state_may_have_changed]
    simp [get_state, hc, eq_comm, is_expected, expected_source,
      lookupSource, errorChange, List.lookup, pure, Except.pure]
    rw [if_neg (fun hh => hc hh.symm)]

/-- Helper: a successful `state_may_have_changed` never touches the
three state slots — it only updates the history, consumes the
expectation and emits. -/
theorem state_may_have_changed_preserves_slots
    (s r : SMState) (ems : List Emission)
    (h : state_may_have_changed s = .ok (r, ems)) :
    r.base_state = s.base_state ∧ r.printing_state = s.printing_state ∧
      r.override_state = s.override_state := by
  simp only [state_may_have_changed] at h
  split at h
  · split at h
    · split at h
      · exact absurd h (by simp)
      · simp only [Except.ok.injEq, Prod.mk.injEq] at h
        obtain ⟨hr, -⟩ := h
        subst hr
        exact ⟨rfl, rfl, rfl⟩
    · simp only [Except.ok.injEq, Prod.mk.injEq] at h
      obtain ⟨hr, -⟩ := h
      subst hr
      exact ⟨rfl, rfl, rfl⟩
  · simp only [Except.ok.injEq, Prod.mk.injEq] at h
    obtain ⟨hr, -⟩ := h
    subst hr
    exact ⟨rfl, rfl, rfl⟩

/-- C1: `get_state` returns the override slot if present, else the
printing slot if present, else the base slot; and it is a pure function
of the three slots alone — two managers with equal slots (whatever
their history, busy flag or expectation) compose the same state, so no
separate stored copy takes part in it. -/
theorem C1_composed_state_precedence (s : SMState) :
    get_state s = s.override_state.getD (s.printing_state.getD s.base_state)
      ∧ get_state s = get_state
          { base_state := s.base_state, printing_state := s.printing_state,
            override_state := s.override_state, internal_busy := false,
            last_state := READY, current_state := READY,
            expected_state_change := none } := by
  cases ho : s.override_state <;> cases hp : s.printing_state <;>
    simp [get_state, ho, hp]

/-- C9: whenever the manager considers the printer busy (`internal_busy`
set or `base==BUSY`), `update_state` only writes the single line
`PRUSA PING`; no mutator runs and the state — slots, history and
expectation register alike — is returned unchanged, with no emission. -/
theorem C9_busy_tick_only_pings (s : SMState) (inp : PollInput)
    (h : is_busy s = true) :
    update_state s inp = .ok (s, ["PRUSA PING"], []) := by
  unfold update_state
  simp [h, pure, Except.pure]

/-- Witness for C9 at a concrete busy manager. -/
theorem C9_busy_tick_only_pings_witness :
    update_state internalBusyState { progress := none, m27 := none } =
      .ok (internalBusyState, ["PRUSA PING"], []) :=
  C9_busy_tick_only_pings internalBusyState
    { progress := none, m27 := none } (by decide)

/-- C10: the single-instance guards of `StateManager.__init__` and
`ConnectAPI.__init__` are unreachable: the class attribute `instance`
starts as `None` and no code ever assigns it, so any number of
consecutive constructor calls succeeds and the intended
`AssertionError` is never raised. -/
theorem C10_instance_guard_unreachable (n : Nat) :
    StateManager_instance_after n = .ok none
      ∧ ConnectAPI_instance_after n = .ok none := by
  induction n with
  | zero => exact ⟨rfl, rfl⟩
  | succ k ih =>
    obtain ⟨h1, h2⟩ := ih
    constructor
    · unfold StateManager_instance_after
      rw [h1]
      rfl
    · unfold ConnectAPI_instance_after
      rw [h2]
      rfl

/-- C2: under an installed expectation, the attributed source is
`from_states[last]` when both `from_states[last]` and `to_states[curr]`
are defined and disagree; otherwise whichever of the two is defined;
otherwise the expectation's `default_source`.  In particular the `ok`
recovery from `ATTENTION` (default expectation
`to:{READY: MARLIN}, from:{ATTENTION: USER, ERROR: USER}`) emits
`state_changed(READY)` attributed to `USER`. -/
theorem C2_source_attribution :
    (∀ (s : SMState) (sc : StateChange),
        s.expected_state_change = some sc →
        expected_source s =
          (if (lookupSource sc.from_states s.last_state).isSome
                ∧ (lookupSource sc.to_states s.current_state).isSome
                ∧ lookupSource sc.to_states s.current_state
                    ≠ lookupSource sc.from_states s.last_state then
             lookupSource sc.from_states s.last_state
           else if (lookupSource sc.from_states s.last_state).isSome then
             lookupSource sc.from_states s.last_state
           else if (lookupSource sc.to_states s.current_state).isSome then
             lookupSource sc.to_states s.current_state
           else sc.default_source))
      ∧ processLine "ok" attentionRecoveryState =
          .ok (attentionRecoveryAfter,
               [{ state := READY, command_id := none,
                  source := some USER }]) := by
  constructor
  · intro s sc h
    simp only [expected_source, h]
    rcases hf : lookupSource sc.from_states s.last_state with _ | sf <;>
      rcases ht : lookupSource sc.to_states s.current_state with _ | st
    · simp
    · simp
    · simp
    · by_cases hs : st = sf
      · subst hs
        simp
      · simp [hs, Ne.symm hs]
  · rfl

/-- Witness for C2: the source looked up while leaving `ATTENTION` for
`READY` under the `ok` default expectation is `USER`. -/
theorem C2_source_attribution_witness :
    expected_source okRecoveryLookupState = some USER :=
  (C2_source_attribution.1 okRecoveryLookupState okChange rfl).trans
    (by decide)

/-- C3: after every processed composed-state change — expected or not —
the expectation register is empty in the state that carries the
`state_changed` emission; and the `state_influencer` wrapper, having
installed a mutator's default expectation, clears it at exit even when
no composed-state transition fired. -/
theorem C3_expectation_single_shot :
    (∀ (s r : SMState) (ems : List Emission),
        get_state s ≠ s.current_state →
        state_may_have_changed s = .ok (r, ems) →
        r.expected_state_change = none)
      ∧ (∀ (d : StateChange)
           (body : SMState → Except Unit (SMState × List Emission))
           (s r : SMState) (ems : List Emission),
          s.expected_state_change = none →
          influenced d body s = .ok (r, ems) →
          r.expected_state_change = none) := by
  constructor
  · intro s r ems hne h
    simp only [state_may_have_changed] at h
    rw [if_pos hne] at h
    split at h
    · split at h
      · exact absurd h (by simp)
      · simp only [Except.ok.injEq, Prod.mk.injEq] at h
        obtain ⟨hr, -⟩ := h
        subst hr
        rfl
    · simp only [Except.ok.injEq, Prod.mk.injEq] at h
      obtain ⟨hr, -⟩ := h
      subst hr
      rfl
  · intro d body s r ems hnone h
    simp only [influenced, hnone, Option.isNone_none, if_true] at h
    rcases hb : body { s with expected_state_change := some d }
        with e | ⟨s2, em1⟩
    · simp only [hb, bind, Except.bind] at h
      exact Except.noConfusion h
    · simp only [hb, bind, Except.bind] at h
      rcases hs : state_may_have_changed s2 with e | ⟨s3, em2⟩
      · simp only [hs] at h
        exact Except.noConfusion h
      · simp only [hs, pure, Except.pure, Except.ok.injEq,
          Prod.mk.injEq] at h
        obtain ⟨hr, -⟩ := h
        subst hr
        rfl

/-- Witness for C3: a pending `BUSY → READY` change leaves the register
empty, and a `paused` call that fires no transition leaves it empty
too. -/
theorem C3_expectation_single_shot_witness :
    (okState (state_may_have_changed staleBusyState)
        staleBusyState).expected_state_change = none
      ∧ (okState (pausedM initialState)
          initialState).expected_state_change = none :=
  ⟨C3_expectation_single_shot.1 staleBusyState
      (okState (state_may_have_changed staleBusyState) staleBusyState)
      (okEms (state_may_have_changed staleBusyState))
      (by decide) rfl,
   C3_expectation_single_shot.2 pausedChange (pureBody paused_body)
      initialState
      (okState (pausedM initialState) initialState)
      (okEms (pausedM initialState)) rfl rfl⟩

/-- Helper: slot effects of a successful `ok` body — the override slot
ends cleared, a `FINISHED` printing slot ends cleared, a `BUSY` base
becomes `READY`. -/
theorem ok_body_slots (s r : SMState) (ems : List Emission)
    (h : ok_body s = .ok (r, ems)) :
    r.override_state = none
      ∧ r.printing_state =
          (if s.printing_state = some FINISHED then none
           else s.printing_state)
      ∧ r.base_state =
          (if s.base_state = BUSY then READY else s.base_state) := by
  rcases ho : s.override_state with _ | ov
  · simp only [ok_body, ho, Option.isSome_none, Bool.false_eq_true,
      if_false, pure, Except.pure, bind, Except.bind,
      Except.ok.injEq, Prod.mk.injEq] at h
    obtain ⟨hr, -⟩ := h
    subst hr
    by_cases hpc : s.printing_state = some FINISHED <;>
      by_cases hbc : s.base_state = BUSY <;>
        simp [hpc, hbc, ho]
  · simp only [ok_body, ho, Option.isSome_some, if_true, bind,
      Except.bind] at h
    rcases hs : state_may_have_changed { s with override_state := none }
        with e | ⟨s1, em1⟩
    · simp only [hs] at h
      exact Except.noConfusion h
    · simp only [hs] at h
      obtain ⟨hb, hp, hov⟩ :=
        state_may_have_changed_preserves_slots _ _ _ hs
      simp only [pure, Except.pure, Except.ok.injEq,
        Prod.mk.injEq] at h
      obtain ⟨hr, -⟩ := h
      subst hr
      simp only at hb hp hov
      by_cases hpc : s.printing_state = some FINISHED <;>
        by_cases hbc : s.base_state = BUSY <;>
          simp [hpc, hbc, hb, hp, hov]

/-- C4: the line `ok` runs exactly the `ok` mutator, which clears any
override, clears a `FINISHED` printing slot, and moves a `BUSY` base to
`READY`; from `printing=FINISHED`, `base=READY` and no override, the
`ok` line produces `state_changed(READY)` attributed to `MARLIN`. -/
theorem C4_ok_line :
    (∀ s : SMState, processLine "ok" s = okM s)
      ∧ (∀ (s r : SMState) (ems : List Emission),
          okM s = .ok (r, ems) →
          r.override_state = none
            ∧ r.printing_state =
                (if s.printing_state = some FINISHED then none
                 else s.printing_state)
            ∧ r.base_state =
                (if s.base_state = BUSY then READY else s.base_state))
      ∧ processLine "ok" finishedOkState =
          .ok (finishedOkAfter,
               [{ state := READY, command_id := none,
                  source := some MARLIN }]) := by
  refine ⟨?_, ?_, ?_⟩
  · intro s
    have h1 : matchesOK "ok" = true := by decide
    have h2 : matchesBUSY "ok" = false := by decide
    have h3 : matchesATTENTION "ok" = false := by decide
    have h4 : matchesPAUSED "ok" = false := by decide
    have h5 : matchesRESUMED "ok" = false := by decide
    have h6 : matchesCANCEL "ok" = false := by decide
    have h7 : matchesSTART_PRINT "ok" = false := by decide
    have h8 : matchesPRINT_DONE "ok" = false := by decide
    have h9 : matchesERROR "ok" = false := by decide
    simp only [processLine, applyIf, h1, h2, h3, h4, h5, h6, h7, h8, h9,
      if_true, Bool.false_eq_true, if_false]
    rcases h : okM s with e | ⟨s1, em1⟩ <;>
      simp [h, bind, Except.bind, pure, Except.pure]
  · intro s r ems h
    unfold okM influenced at h
    by_cases hE : s.expected_state_change.isNone <;>
      simp only [hE, if_true, if_false, Bool.false_eq_true, bind,
        Except.bind] at h
    · rcases hb : ok_body { s with expected_state_change := some okChange }
          with e | ⟨s2, em1⟩
      · simp only [hb] at h
        exact Except.noConfusion h
      · simp only [hb] at h
        obtain ⟨ho2, hp2, hb2⟩ := ok_body_slots _ _ _ hb
        rcases hs : state_may_have_changed s2 with e | ⟨s3, em2⟩
        · simp only [hs] at h
          exact Except.noConfusion h
        · simp only [hs] at h
          obtain ⟨hb3, hp3, ho3⟩ :=
            state_may_have_changed_preserves_slots _ _ _ hs
          simp only [pure, Except.pure, Except.ok.injEq,
            Prod.mk.injEq] at h
          obtain ⟨hr, -⟩ := h
          subst hr
          refine ⟨?_, ?_, ?_⟩ <;> simp_all [apply_ite]
    · rcases hb : ok_body s with e | ⟨s2, em1⟩
      · simp only [hb] at h
        exact Except.noConfusion h
      · simp only [hb] at h
        obtain ⟨ho2, hp2, hb2⟩ := ok_body_slots _ _ _ hb
        rcases hs : state_may_have_changed s2 with e | ⟨s3, em2⟩
        · simp only [hs] at h
          exact Except.noConfusion h
        · simp only [hs] at h
          obtain ⟨hb3, hp3, ho3⟩ :=
            state_may_have_changed_preserves_slots _ _ _ hs
          simp only [pure, Except.pure, Except.ok.injEq,
            Prod.mk.injEq] at h
          obtain ⟨hr, -⟩ := h
          subst hr
          refine ⟨?_, ?_, ?_⟩ <;> simp_all [apply_ite]
  · rfl

/-- Witness for C4 at the finished-print manager. -/
theorem C4_ok_line_witness :
    (okState (okM finishedOkState) finishedOkState).override_state = none
      ∧ (okState (okM finishedOkState) finishedOkState).printing_state =
          (if finishedOkState.printing_state = some FINISHED then none
           else finishedOkState.printing_state)
      ∧ (okState (okM finishedOkState) finishedOkState).base_state =
          (if finishedOkState.base_state = BUSY then READY
           else finishedOkState.base_state) :=
  C4_ok_line.2.1 finishedOkState
    (okState (okM finishedOkState) finishedOkState)
    (okEms (okM finishedOkState)) rfl

/-- C6 counterexample: the line
`Error:Printer stopped due to errors. Flame detected` begins with
`Error:Printer stopped due to errors.` yet does NOT match the code's
`ERROR_REGEX` (whose unescaped `.` must be followed by the literal
` Fix the error and use M999 to restart`), so processing it fires no
handler: the override slot stays empty and nothing is emitted. -/
theorem C6_error_regex_counterexample :
    ("Error:Printer stopped due to errors.".data.isPrefixOf
        "Error:Printer stopped due to errors. Flame detected".data) = true
      ∧ matchesERROR "Error:Printer stopped due to errors. Flame detected"
          = false
      ∧ processLine "Error:Printer stopped due to errors. Flame detected"
          initialState = .ok (initialState, []) := by
  refine ⟨by decide, by decide, ?_⟩
  rfl

/-- C6 amended: every serial line matching `ERROR_REGEX` as written —
the literal `Error:Printer stopped due to errors`, one arbitrary
character (the unescaped `.`), then the literal
` Fix the error and use M999 to restart`, then anything — triggers the
`error` mutator, which sets the override slot to `ERROR`. -/
theorem C6_error_regex_amended (l : String) (s : SMState)
    (hm : matchesERROR l = true)
    (he : s.expected_state_change = none) :
    ∃ r ems, processLine l s = .ok (r, ems)
      ∧ r.override_state = some ERROR := by
  have hOK : matchesOK l = false := by
    unfold matchesOK
    exact matchesERROR_ne_lit l "ok" hm (by decide)
  have hBUSY : matchesBUSY l = false := by
    unfold matchesBUSY
    exact matchesERROR_ne_lit l "echo:busy: processing" hm (by decide)
  have hATT : matchesATTENTION l = false := by
    unfold matchesATTENTION
    exact matchesERROR_ne_lit l "echo:busy: paused for user" hm (by decide)
  have hPAU : matchesPAUSED l = false := by
    unfold matchesPAUSED
    exact matchesERROR_ne_lit l "// action:paused" hm (by decide)
  have hRES : matchesRESUMED l = false := by
    unfold matchesRESUMED
    exact matchesERROR_ne_lit l "// action:resumed" hm (by decide)
  have hCAN : matchesCANCEL l = false := by
    unfold matchesCANCEL
    exact matchesERROR_ne_lit l "// action:cancel" hm (by decide)
  have hSTA : matchesSTART_PRINT l = false := by
    unfold matchesSTART_PRINT
    exact matchesERROR_ne_lit l "echo:enqueing \"M24\"" hm (by decide)
  have hDON : matchesPRINT_DONE l = false := by
    unfold matchesPRINT_DONE
    exact matchesERROR_ne_lit l "Done printing file" hm (by decide)
  obtain ⟨r, ems, hr, ho⟩ := errorM_sets_override s he
  refine ⟨r, [] ++ ems, ?_, ho⟩
  simp only [processLine, applyIf, hOK, hBUSY, hATT, hPAU, hRES, hCAN,
    hSTA, hDON, hm, if_true, Bool.false_eq_true, if_false, bind,
    Except.bind, pure, Except.pure, hr]

/-- Witness for C6 amended: the genuine firmware error line sets the
override slot to `ERROR` from the initial state. -/
theorem C6_error_regex_amended_witness :
    (okState (processLine
        "Error:Printer stopped due to errors. Fix the error and use M999 to restart"
        initialState) initialState).override_state = some ERROR := by
  obtain ⟨r, ems, hok, ho⟩ := C6_error_regex_amended
    "Error:Printer stopped due to errors. Fix the error and use M999 to restart"
    initialState (by decide) rfl
  rw [okState.eq_def, hok]
  exact ho

/-- Helper: overwriting an already empty expectation register with
`none` is the identity. -/
theorem update_expected_none (s : SMState)
    (h : s.expected_state_change = none) :
    { s with expected_state_change := none } = s := by
  cases s
  simp_all

/-- Helper: when the composed state agrees with the recorded current
state, `state_may_have_changed` does nothing. -/
theorem state_may_have_changed_noop (s : SMState)
    (h : get_state s = s.current_state) :
    state_may_have_changed s = .ok (s, []) := by
  simp only [state_may_have_changed, h]
  simp

/-- Helper: when the printing slot is already occupied and the state
history is consistent, `printing` is a complete no-op: the manager state
is returned unchanged and nothing is emitted. -/
theorem printingM_noop (s : SMState)
    (hp : s.printing_state ≠ none)
    (hc : s.current_state = get_state s) :
    printingM s = .ok (s, []) := by
  rcases hEx : s.expected_state_change with _ | sc
  · unfold printingM influenced pureBody printing_body
    simp only [hEx, Option.isNone_none, if_true, bind, Except.bind, hp,
      if_false, reduceIte]
    rw [state_may_have_changed_noop
      { s with expected_state_change := some printingChange } hc.symm]
    simp only [pure, Except.pure, List.append_nil]
    rw [update_expected_none s hEx]
  · unfold printingM influenced pureBody printing_body
    simp only [hEx, Option.isNone_some, Bool.false_eq_true, if_false,
      bind, Except.bind, hp, reduceIte]
    rw [state_may_have_changed_noop s hc.symm]
    simp [pure, Except.pure]

/-- C7: an `M27` poll answered `Not SD printing` (group 1 of the SD
pattern) while `printing=PAUSED` leaves the manager state — all three
slots, the history and the expectation register — unchanged and emits
nothing: the `printing` mutator taken in that branch has no effect on a
non-empty printing slot. -/
theorem C7_sd_poll_while_paused (s : SMState) (inp : PollInput)
    (h1 : is_busy s = false)
    (h2 : s.printing_state = some PAUSED)
    (h3 : s.current_state = get_state s)
    (h4 : inp.m27 = sdGroups "Not SD printing") :
    update_state s inp = .ok (s, ["M27"], []) := by
  have hsd : sdGroups "Not SD printing" =
      some { g1 := some "Not SD printing", g2 := none } := rfl
  unfold update_state
  rw [h4, hsd]
  simp only [h1, Bool.false_eq_true, if_false, h2, reduceCtorEq,
    Option.some.injEq, reduceIte, bind, Except.bind, pure, Except.pure,
    Option.isSome_some, Bool.true_and, ne_eq, not_true_eq_false,
    Bool.and_false, if_false]
  rw [printingM_noop s (by simp [h2]) h3]
  simp [pure, Except.pure]

/-- Witness for C7 at the paused manager of spec scenario (f). -/
theorem C7_sd_poll_while_paused_witness :
    update_state sdPausedState sdPausedInput =
      .ok (sdPausedState, ["M27"], []) :=
  C7_sd_poll_while_paused sdPausedState sdPausedInput rfl rfl rfl rfl

/-- Helper: the slot effects of a wrapped mutator whose body only
rewrites the printing slot as a function of the old printing slot. -/
theorem influenced_pure_printing (d : StateChange)
    (f : SMState → SMState) (pf : Option States → Option States)
    (hf : ∀ t, f t = { t with printing_state := pf t.printing_state })
    (s r : SMState) (ems : List Emission)
    (h : influenced d (pureBody f) s = .ok (r, ems)) :
    r.printing_state = pf s.printing_state
      ∧ r.base_state = s.base_state
      ∧ r.override_state = s.override_state := by
  unfold influenced pureBody at h
  by_cases hE : s.expected_state_change.isNone <;>
    simp only [hE, if_true, Bool.false_eq_true, if_false, bind,
      Except.bind, hf] at h
  · rcases hs : state_may_have_changed
        { s with expected_state_change := some d,
                 printing_state := pf s.printing_state }
        with e | ⟨s3, em2⟩
    · simp only [hs] at h
      exact Except.noConfusion h
    · simp only [hs, pure, Except.pure, Except.ok.injEq,
        Prod.mk.injEq] at h
      obtain ⟨hr, -⟩ := h
      subst hr
      obtain ⟨hb3, hp3, ho3⟩ :=
        state_may_have_changed_preserves_slots _ _ _ hs
      exact ⟨hp3, hb3, ho3⟩
  · rcases hs : state_may_have_changed
        { s with printing_state := pf s.printing_state }
        with e | ⟨s3, em2⟩
    · simp only [hs] at h
      exact Except.noConfusion h
    · simp only [hs, pure, Except.pure, Except.ok.injEq,
        Prod.mk.injEq] at h
      obtain ⟨hr, -⟩ := h
      subst hr
      obtain ⟨hb3, hp3, ho3⟩ :=
        state_may_have_changed_preserves_slots _ _ _ hs
      exact ⟨hp3, hb3, ho3⟩

/-- C8: `paused` moves the printing slot to `PAUSED` exactly when it is
`PRINTING` at entry, `resumed` moves it to `PRINTING` exactly when it is
`PAUSED` at entry; in every other starting state the printing slot is
returned unchanged, and neither mutator ever touches the base or
override slots. -/
theorem C8_paused_resumed_frame :
    (∀ (s r : SMState) (ems : List Emission),
        pausedM s = .ok (r, ems) →
        r.printing_state =
            (if s.printing_state = some PRINTING then some PAUSED
             else s.printing_state)
          ∧ r.base_state = s.base_state
          ∧ r.override_state = s.override_state)
      ∧ (∀ (s r : SMState) (ems : List Emission),
        resumedM s = .ok (r, ems) →
        r.printing_state =
            (if s.printing_state = some PAUSED then some PRINTING
             else s.printing_state)
          ∧ r.base_state = s.base_state
          ∧ r.override_state = s.override_state) := by
  constructor
  · intro s r ems h
    exact influenced_pure_printing pausedChange paused_body
      (fun p => if p = some PRINTING then some PAUSED else p)
      (by
        intro t
        unfold paused_body
        by_cases hc : t.printing_state = some PRINTING <;> simp [hc])
      s r ems h
  · intro s r ems h
    exact influenced_pure_printing resumedChange resumed_body
      (fun p => if p = some PAUSED then some PRINTING else p)
      (by
        intro t
        unfold resumed_body
        by_cases hc : t.printing_state = some PAUSED <;> simp [hc])
      s r ems h

/-- Witness for C8: `paused` on a printing manager and `resumed` on a
paused one. -/
theorem C8_paused_resumed_frame_witness :
    ((okState (pausedM printingNowState)
          printingNowState).printing_state =
        (if printingNowState.printing_state = some PRINTING
         then some PAUSED else printingNowState.printing_state)
      ∧ (okState (pausedM printingNowState)
          printingNowState).base_state = printingNowState.base_state
      ∧ (okState (pausedM printingNowState)
          printingNowState).override_state =
          printingNowState.override_state)
      ∧ ((okState (resumedM pausedNowState)
          pausedNowState).printing_state =
        (if pausedNowState.printing_state = some PAUSED
         then some PRINTING else pausedNowState.printing_state)
      ∧ (okState (resumedM pausedNowState)
          pausedNowState).base_state = pausedNowState.base_state
      ∧ (okState (resumedM pausedNowState)
          pausedNowState).override_state =
          pausedNowState.override_state) :=
  ⟨C8_paused_resumed_frame.1 printingNowState
      (okState (pausedM printingNowState) printingNowState)
      (okEms (pausedM printingNowState)) rfl,
   C8_paused_resumed_frame.2 pausedNowState
      (okState (resumedM pausedNowState) pausedNowState)
      (okEms (resumedM pausedNowState)) rfl⟩

/-- C5 is a code bug: a composed-state change that `is_expected`
classifies as expected (here `BUSY → READY` under an installed
`StateChange(to_states={READY: None})` whose matching entry and
`default_source` are both `None`) makes `state_may_have_changed`
evaluate `self.expected_source().name` on `None`, raising
`AttributeError` out of the observer path instead of completing the
`state_changed` emission.  The `ok` mutator on `noneSourceState`
exhibits it. -/
theorem C5_expected_change_none_source_crashes :
    is_expected { noneSourceState with
        base_state := READY, last_state := BUSY,
        current_state := READY } = true
      ∧ okM noneSourceState = .error () :=
  ⟨rfl, rfl⟩

end OldBuddy
